import Mathlib

/-!
# Verification of the file-management web application (src/app.py)

A shallow embedding of the request handlers of `src/app.py` — a small Flask
application that searches for videos, downloads them into a single managed
directory (`DOWNLOAD_FOLDER`), and lists / archives / fetches / purges the
files in that directory — together with proofs and refutations of the frozen
claims about it.

Modelling conventions:
* Filesystem state is explicit: `FS` holds the direct children of the managed
  directory (regular files and, one level deep, subdirectories with their
  files) plus the files of the parent directory that a `..` path component
  reaches.  File contents are byte lists, modification times are integers
  (POSIX timestamps).
* Handlers that can answer with an HTTP error status return
  `Except AppError _`; handlers that mutate the directory also return the
  resulting `FS`.
* Python string operations used by the code (`str.strip`, `str.lower`,
  substring `in`) are embedded as executable functions on the character
  list of a `String` (`pyStrip`, `pyLower`, `strContains`); they agree with
  the Python operations on the ASCII range exercised here.
-/

namespace UltraTech

/-- File contents, as a byte sequence. -/
abbrev Bytes := List Nat

/-- A regular file: its name, contents, last-modified time (POSIX seconds),
and whether `unlink` on it succeeds (`removable = false` models a file whose
deletion raises, e.g. for permission reasons). -/
structure FileEnt where
  name : String
  content : Bytes
  mtime : Int
  removable : Bool
deriving DecidableEq, Repr

/-- A direct child of the managed directory: a regular file, or a
subdirectory together with the regular files inside it (one level of nesting
is all the claims exercise). A symlink whose target is not a regular file
behaves like the `dir` case for every `is_file()` test, so it needs no
separate constructor. -/
inductive Entry where
  | file : FileEnt → Entry
  | dir : String → List FileEnt → Entry
deriving DecidableEq, Repr

/-- The name of a direct child. -/
def Entry.name : Entry → String
  | .file f => f.name
  | .dir n _ => n

/-- Whether a direct child is a regular file (`Path.is_file()`). -/
def Entry.isFile : Entry → Bool
  | .file _ => true
  | .dir _ _ => false

/-- The state of the managed directory: its direct children, plus the
regular files of its parent directory (what a leading `..` path component
resolves into). -/
structure FS where
  children : List Entry
  outside : List FileEnt
deriving DecidableEq, Repr

/-! ## Embedded Python string primitives -/

/-- One step of splitting a character list at `/`. -/
def splitPathAux (c : Char) (acc : List (List Char)) : List (List Char) :=
  if c = '/' then [] :: acc
  else
    match acc with
    | [] => [[c]]
    | h :: t => (c :: h) :: t

/-- Splitting a relative path into its `/`-separated components, as POSIX
path resolution of `DOWNLOAD_FOLDER / filename` does. -/
def splitPath (s : String) : List String :=
  (s.toList.foldr splitPathAux [[]]).map (fun l => String.mk l)

/-- Python `str.lower()` (ASCII range). -/
def pyLower (s : String) : String :=
  String.mk (s.toList.map Char.toLower)

/-- Python `str.strip()`: drop leading and trailing whitespace. -/
def pyStrip (s : String) : String :=
  String.mk (((s.toList.dropWhile Char.isWhitespace).reverse.dropWhile
    Char.isWhitespace).reverse)

/-- Whether the first list is a prefix of the second (Boolean). -/
def isPrefixB : List Char → List Char → Bool
  | [], _ => true
  | _ :: _, [] => false
  | a :: as, b :: bs => a = b && isPrefixB as bs

/-- Whether `needle` occurs as a contiguous sublist. -/
def containsSub (needle : List Char) : List Char → Bool
  | [] => isPrefixB needle []
  | b :: t => isPrefixB needle (b :: t) || containsSub needle t

/-- Python substring test `needle in hay`. -/
def strContains (hay needle : String) : Bool :=
  containsSub needle.toList hay.toList

/-! ## Path resolution -/

/-- Look up a regular file by name in a list of files. -/
def findFile (l : List FileEnt) (n : String) : Option FileEnt :=
  l.find? (fun f => f.name = n)

/-- Look up a direct child of the managed directory by name. -/
def findChild (fs : FS) (n : String) : Option Entry :=
  fs.children.find? (fun e => e.name = n)

/-- Resolution of `DOWNLOAD_FOLDER / filename` to an existing regular file,
i.e. the combined `filepath.exists() and filepath.is_file()` test of the
code together with the file the path denotes.  A single component is a
direct-child lookup; `"a/b"` descends into subdirectory `a`; `"../x"`
escapes to the parent directory.  Paths the model does not represent
(three or more components) resolve to `none`, which the handlers treat
exactly like a missing file. -/
def resolveFile (fs : FS) (filename : String) : Option FileEnt :=
  match splitPath filename with
  | [n] =>
    match findChild fs n with
    | some (.file f) => some f
    | _ => none
  | [d, n] =>
    if d = ".." then findFile fs.outside n
    else
      match findChild fs d with
      | some (.dir _ files) => findFile files n
      | _ => none
  | _ => none

/-- Whether a path string is absolute (starts with `/`). -/
def startsWithSlash (s : String) : Bool :=
  match s.toList with
  | [] => false
  | c :: _ => c = '/'

/-- The rejection test of Werkzeug's `safe_join`, which Flask's
`send_from_directory` applies to the requested filename: an absolute path
or any `..` component makes it answer 404. (`safe_join` normalises the
path first; on paths free of `.`/`..` components, as exercised here,
normalisation is the identity.) -/
def safeJoinRejects (filename : String) : Bool :=
  startsWithSlash filename || (splitPath filename).any (fun p => p = "..")

/-! ## Error taxonomy (§7 of the spec) -/

/-- The error taxonomy of the spec.  `pathTraversal` is part of the
taxonomy but — as the theorems below show — never produced by the code. -/
inductive AppError where
  | missingField
  | notFound
  | emptySelection
  | pathTraversal
  | invalidAction
  | internalError
deriving DecidableEq, Repr

/-- Whether a handler outcome is the `PathTraversal` rejection. -/
def isPathTraversalError {α : Type} : Except AppError α → Bool
  | .error .pathTraversal => true
  | _ => false

/-! ## `handle_file_download` (src/app.py lines 186-201) -/

/-- `handle_file_download`: strip the posted filename; an empty name is the
400 "No filename provided" answer; a name failing the
`exists() and is_file()` test on `DOWNLOAD_FOLDER / filename` is the 404
"File not found" answer; otherwise the file is served through
`send_from_directory`, whose `safe_join` turns `..`/absolute names into a
404 and serves the resolved file's bytes for the rest. -/
def handle_file_download (fs : FS) (filename0 : String) : Except AppError Bytes :=
  let filename := pyStrip filename0
  if filename = "" then .error .missingField
  else
    match resolveFile fs filename with
    | none => .error .notFound
    | some f =>
      if safeJoinRejects filename then .error .notFound
      else .ok f.content

/-! ## `handle_zip_download` (src/app.py lines 203-224) -/

/-- `handle_zip_download`: an empty `filenames[]` list is the 400
"No files selected" answer; otherwise a zip is assembled in an in-memory
buffer with one entry (stored under the requested name) per name whose
`DOWNLOAD_FOLDER / filename` passes the `exists() and is_file()` test,
names that fail it being skipped silently.  No filesystem write occurs,
so the resulting directory state is the input state. -/
def handle_zip_download (fs : FS) (filenames : List String) :
    Except AppError (List (String × Bytes) × FS) :=
  if filenames = [] then .error .emptySelection
  else
    .ok (filenames.filterMap
      (fun fn => (resolveFile fs fn).map (fun f => (fn, f.content))), fs)

/-! ## File records and `handle_get_files` (src/app.py lines 56-72, 226-243) -/

/-- The record `get_file_info` builds from one `stat` of a file.  The
presentation-only fields derived from the same data — `size_formatted`
(external `humanize` rendering of `size`), `extension` and `created` — are
omitted; no claim touches them.  `modified` is the numeric `st_mtime`: the
code sorts by its `isoformat()` string, and on the timestamp range the
model covers (years 1000–9999) that string is strictly increasing in the
timestamp, so ordering by it and by the number coincide. -/
structure FileInfo where
  filename : String
  size : Nat
  modified : Int
  selected : Bool
deriving DecidableEq, Repr

/-- `get_file_info` (src/app.py lines 61-72). -/
def get_file_info (f : FileEnt) : FileInfo :=
  { filename := f.name
    size := f.content.length
    modified := f.mtime
    selected := false }

/-- The keep test of the listing loop: keep every file when the query is
empty, else keep the files whose lowercased name contains it
(`if query and query not in filepath.name.lower(): continue`). -/
def matchesQuery (query : String) (name : String) : Bool :=
  query = "" || strContains (pyLower name) query

/-- One iteration of the listing loop: a regular file passing the query
test contributes its record, everything else is skipped. -/
def recordIfMatch (query : String) : Entry → Option FileInfo
  | .file f => if matchesQuery query f.name then some (get_file_info f) else none
  | .dir _ _ => none

/-- Newest-modified-first order on file records. -/
def newestFirst (a b : FileInfo) : Prop :=
  b.modified ≤ a.modified

instance : DecidableRel newestFirst :=
  fun a b => Int.decLe b.modified a.modified

instance : IsTotal FileInfo newestFirst :=
  ⟨fun a b => le_total b.modified a.modified⟩

instance : IsTrans FileInfo newestFirst :=
  ⟨fun _ _ _ h1 h2 => le_trans h2 h1⟩

/-- The outcome of `DOWNLOAD_FOLDER.iterdir()` as the listing loop consumes
it: the entries it yielded, and whether it then raised instead of finishing
(`interrupted = true` makes the `except` arm of the handler run after the
yielded prefix was processed). -/
structure IterResult where
  yielded : List Entry
  interrupted : Bool
deriving DecidableEq, Repr

/-- `handle_get_files`: lowercase then strip the posted `query` form field,
collect the record of every yielded regular file passing the query test,
and — when iteration finished normally — sort newest-modified-first
(`files.sort(key=..., reverse=True)`; the embedding's insertion sort agrees
with it up to the order of records with equal keys, which no claim
constrains).  If iteration raised, the `except` arm only logs, and the
records collected so far are returned unsorted; either way the handler
answers 200 with a JSON list, never an error status. -/
def handle_get_files (it : IterResult) (formQuery : String) :
    Except AppError (List FileInfo) :=
  let query := pyStrip (pyLower formQuery)
  let collected := it.yielded.filterMap (recordIfMatch query)
  if it.interrupted then .ok collected
  else .ok (List.insertionSort newestFirst collected)

/-- `api_get_files` (src/app.py lines 245-250), handling
`GET /api/files?q=...`: the handler lowercases and strips the `q` URL
argument into a local `query` that it never uses, then delegates to
`handle_get_files` — which reads the *form* field `"query"`, absent in a
GET request, so the delegate's query defaults to `""`. -/
def api_get_files (argsQ : String) (it : IterResult) :
    Except AppError (List FileInfo) :=
  let _query := pyStrip (pyLower argsQ)
  handle_get_files it ""

/-! ## `api_disk_usage` (src/app.py lines 252-261) -/

/-- The names the import statements of src/app.py (lines 1-17) bind at
module level: `os io json zipfile logging`, `datetime` (from `datetime`),
`Path` (from `pathlib`), `wraps` (from `functools`), the six Flask names,
`Cache`, `Limiter`, `get_remote_address`, `load_dotenv`, `humanize`,
`VideosSearch`, `yt_dlp`.  The remaining module-level statements bind only
`app`, `cache`, `limiter`, `DOWNLOAD_FOLDER`, `logger` and the handler
functions — so `shutil`, which `api_disk_usage` refers to, is bound
nowhere in the module. -/
def moduleImports : List String :=
  ["os", "io", "json", "zipfile", "logging", "datetime", "Path", "wraps",
   "Flask", "request", "jsonify", "send_from_directory", "send_file",
   "render_template", "Cache", "Limiter", "get_remote_address",
   "load_dotenv", "humanize", "VideosSearch", "yt_dlp"]

/-- What `shutil.disk_usage(DOWNLOAD_FOLDER)` would report: the byte
capacity of the volume holding the managed directory. -/
structure DiskUsage where
  total : Nat
  used : Nat
  free : Nat
deriving DecidableEq, Repr

/-- The JSON body the handler would build on success.  `total`/`used`/
`free` stand for the byte counts (their external `humanize.naturalsize`
rendering is presentation only); `percentUsedTimes100` models
`round((used / total) * 100, 2)` as a percentage in hundredths. -/
structure DiskUsageReport where
  total : Nat
  used : Nat
  free : Nat
  percentUsedTimes100 : Nat
deriving DecidableEq, Repr

/-- `api_disk_usage`: the handler body evaluates `shutil.disk_usage`.
Python resolves the name `shutil` against the module's bindings; if it is
unbound the expression raises `NameError`, which no handler catches, so
Flask answers with the 500 "Internal server error" body of the
`errorhandler(500)` hook (src/app.py lines 290-293), modelled as
`AppError.internalError`.  Only when the name resolves is the report
built. -/
def api_disk_usage (du : DiskUsage) : Except AppError DiskUsageReport :=
  if moduleImports.contains "shutil" then
    .ok { total := du.total
          used := du.used
          free := du.free
          percentUsedTimes100 := du.used * 10000 / du.total }
  else .error .internalError

/-! ## `api_cleanup` (src/app.py lines 263-284) -/

/-- The purge cutoff: `datetime.now().timestamp() - (days * 24 * 60 * 60)`. -/
def cutoffOf (now days : Int) : Int :=
  now - days * 24 * 60 * 60

/-- The message collected when deleting a file raises (`str(e)` of the
exception; the model keeps the file's name in it, which is all the claims
inspect about a message beyond its presence). -/
def unlinkErrMsg (n : String) : String :=
  "unlink failed: " ++ n

/-- The cleanup loop over the direct children, in iteration order: a
regular file with `st_mtime < cutoff` is unlinked — its name goes to
`deleted` on success, `str(e)` goes to `errors` when unlinking raises and
the file stays — and everything else is left in place.  Returns
`(deleted, errors, remaining children)`. -/
def cleanupLoop (cutoff : Int) : List Entry → List String × List String × List Entry
  | [] => ([], [], [])
  | e :: rest =>
    let r := cleanupLoop cutoff rest
    match e with
    | .file f =>
      if f.mtime < cutoff then
        if f.removable then (f.name :: r.1, r.2.1, r.2.2)
        else (r.1, unlinkErrMsg f.name :: r.2.1, .file f :: r.2.2)
      else (r.1, r.2.1, .file f :: r.2.2)
    | .dir n l => (r.1, r.2.1, .dir n l :: r.2.2)

/-- The report `api_cleanup` answers with. -/
structure PurgeResult where
  deleted : List String
  errors : List String
  message : String
deriving DecidableEq, Repr

/-- `api_cleanup`: compute the cutoff from the posted `days`, run the
cleanup loop over the directory, and answer with the deleted names, the
collected error messages and the summary message, alongside the resulting
directory state. -/
def api_cleanup (now days : Int) (fs : FS) : PurgeResult × FS :=
  let r := cleanupLoop (cutoffOf now days) fs.children
  ({ deleted := r.1
     errors := r.2.1
     message := "Deleted " ++ toString r.1.length ++ " file(s)" },
   { fs with children := r.2.2 })

/-- A direct child that the cleanup loop deletes: a regular file older than
the cutoff whose unlink succeeds. -/
def isOldRemovableFile (cutoff : Int) : Entry → Bool
  | .file f => f.mtime < cutoff && f.removable
  | .dir _ _ => false

/-- A direct child whose unlink the cleanup loop attempts but fails: a
regular file older than the cutoff that is not removable. -/
def isOldStuckFile (cutoff : Int) : Entry → Bool
  | .file f => f.mtime < cutoff && !f.removable
  | .dir _ _ => false

/-! ## Search (src/app.py lines 98-119, 165-172) -/

/-- One raw item of the provider's response, with every field the
formatting loop reads, each possibly absent (`item.get`).  `thumbnailUrl`
stands for `item.get('thumbnails', [{}])[0].get('url', '')`, `channelName`
for `item.get('channel', {}).get('name', ...)`, `viewsShort` for
`item.get('viewCount', {}).get('short', ...)`. -/
structure RawItem where
  title : Option String
  link : Option String
  thumbnailUrl : Option String
  duration : Option String
  channelName : Option String
  viewsShort : Option String
  publishedTime : Option String
deriving DecidableEq, Repr

/-- The normalised search result shape. -/
structure SearchResult where
  title : String
  url : String
  thumbnail : String
  duration : String
  channel : String
  views : String
  published : String
deriving DecidableEq, Repr

/-- The external video-search provider
(`VideosSearch(query, limit=limit).result()`): a list of raw items, or a
raised exception carried as an error message. -/
abbrev Provider := String → Nat → Except String (List RawItem)

/-- The per-item normalisation of the formatting loop, with the literal
defaults of the code for absent fields. -/
def formatItem (it : RawItem) : SearchResult :=
  { title := it.title.getD "No title"
    url := it.link.getD ""
    thumbnail := it.thumbnailUrl.getD ""
    duration := it.duration.getD "N/A"
    channel := it.channelName.getD "Unknown"
    views := it.viewsShort.getD "N/A"
    published := it.publishedTime.getD "N/A" }

/-- `search_youtube`: query the provider and normalise each item; any
exception the provider raises is caught, logged, and folded into the empty
list — nothing propagates. -/
def search_youtube (provider : Provider) (query : String) (limit : Nat := 10) :
    List SearchResult :=
  match provider query limit with
  | .ok items => items.map formatItem
  | .error _ => []

/-- `handle_youtube_search`: strip the posted query; an empty result
short-circuits to the empty JSON list, otherwise `search_youtube` runs
with the default limit of 10.  The Boolean records whether
`search_youtube` (and hence the provider/cache machinery behind it) was
invoked at all; it is instrumentation for the claims, not a value the
handler returns. -/
def handle_youtube_search (provider : Provider) (queryRaw : String) :
    List SearchResult × Bool :=
  let query := pyStrip queryRaw
  if query = "" then ([], false)
  else (search_youtube provider query 10, true)

/-! ## Decidable equality of handler outcomes -/

instance {e a : Type} [DecidableEq e] [DecidableEq a] : DecidableEq (Except e a) :=
  fun x y =>
  match x, y with
  | .ok u, .ok v => if h : u = v then .isTrue (by rw [h]) else .isFalse (by simp [h])
  | .error u, .error v => if h : u = v then .isTrue (by rw [h]) else .isFalse (by simp [h])
  | .ok _, .error _ => .isFalse (by simp)
  | .error _, .ok _ => .isFalse (by simp)

/-! ## Helper lemmas -/

/-- The record of a direct child when no filter is active: every regular
file contributes, everything else is skipped. -/
def entryRecord : Entry → Option FileInfo
  | .file f => some (get_file_info f)
  | .dir _ _ => none

theorem recordIfMatch_empty_eq (e : Entry) : recordIfMatch "" e = entryRecord e := by
  cases e with
  | file f => simp [recordIfMatch, matchesQuery, entryRecord]
  | dir n l => rfl

theorem filterMap_entryRecord_length (l : List Entry) :
    (l.filterMap entryRecord).length = l.countP Entry.isFile := by
  induction l with
  | nil => rfl
  | cons e rest ih =>
    cases e with
    | file f =>
      simp [List.filterMap_cons, List.countP_cons, entryRecord, Entry.isFile, ih]
    | dir n fl =>
      simp [List.filterMap_cons, List.countP_cons, entryRecord, Entry.isFile, ih]

theorem cleanupLoop_eq (cutoff : Int) (l : List Entry) :
    cleanupLoop cutoff l =
      ((l.filter (isOldRemovableFile cutoff)).map Entry.name,
       (l.filter (isOldStuckFile cutoff)).map (fun e => unlinkErrMsg e.name),
       l.filter (fun e => !isOldRemovableFile cutoff e)) := by
  induction l with
  | nil => rfl
  | cons e rest ih =>
    cases e with
    | file f =>
      by_cases h1 : f.mtime < cutoff
      · by_cases h2 : f.removable = true
        · simp [cleanupLoop, ih, isOldRemovableFile, isOldStuckFile, List.filter_cons,
            h1, h2, Entry.name]
        · simp [cleanupLoop, ih, isOldRemovableFile, isOldStuckFile, List.filter_cons,
            h1, h2, Entry.name]
      · simp [cleanupLoop, ih, isOldRemovableFile, isOldStuckFile, List.filter_cons, h1]
    | dir n fl =>
      simp [cleanupLoop, ih, isOldRemovableFile, isOldStuckFile, List.filter_cons]

theorem api_cleanup_deleted (now days : Int) (fs : FS) :
    (api_cleanup now days fs).1.deleted =
      (fs.children.filter (isOldRemovableFile (cutoffOf now days))).map Entry.name := by
  simp [api_cleanup, cleanupLoop_eq]

theorem api_cleanup_errors (now days : Int) (fs : FS) :
    (api_cleanup now days fs).1.errors =
      (fs.children.filter (isOldStuckFile (cutoffOf now days))).map
        (fun e => unlinkErrMsg e.name) := by
  simp [api_cleanup, cleanupLoop_eq]

theorem api_cleanup_children (now days : Int) (fs : FS) :
    (api_cleanup now days fs).2.children =
      fs.children.filter (fun e => !isOldRemovableFile (cutoffOf now days) e) := by
  simp [api_cleanup, cleanupLoop_eq]

/-- A within-window file's name never appears among the deleted names
(names of direct children are distinct, as in a real directory). -/
theorem name_not_deleted_of_not_old (now days : Int) (fs : FS) (f : FileEnt)
    (hnodup : (fs.children.map Entry.name).Nodup)
    (hmem : Entry.file f ∈ fs.children)
    (hnot : ¬ f.mtime < cutoffOf now days) :
    f.name ∉ (api_cleanup now days fs).1.deleted := by
  rw [api_cleanup_deleted]
  intro hcon
  rcases List.mem_map.mp hcon with ⟨e, he, hname⟩
  rcases List.mem_filter.mp he with ⟨hel, hp⟩
  have : e = Entry.file f :=
    List.inj_on_of_nodup_map hnodup hel hmem (by simpa [Entry.name] using hname)
  subst this
  simp [isOldRemovableFile, hnot] at hp

/-! ## Concrete fixtures -/

/-- A managed directory with a subdirectory `a` holding a file `b`, a
direct-child file `present.txt`, and a file `secret` in the parent
directory. -/
def fsFetch : FS :=
  { children := [.dir "a" [{ name := "b", content := [7, 8, 9], mtime := 0, removable := true }],
                 .file { name := "present.txt", content := [4, 2], mtime := 10, removable := true }]
    outside := [{ name := "secret", content := [1], mtime := 0, removable := true }] }

/-- A directory whose only regular files live inside the subdirectory `a`:
it has no direct-child regular file at all. -/
def fsSubOnly : FS :=
  { children := [.dir "a" [{ name := "b", content := [9], mtime := 0, removable := true }]]
    outside := [] }

/-- An uninterrupted enumeration of a directory holding `alpha.txt` and
`beta.txt`. -/
def itListing : IterResult :=
  { yielded := [.file { name := "alpha.txt", content := [1], mtime := 5, removable := true },
                .file { name := "beta.txt", content := [2], mtime := 3, removable := true }]
    interrupted := false }

/-- A provider that always raises. -/
def pBoom : Provider := fun _ _ => .error "network unreachable"

/-! ## Claims -/

/-- C1: the claim asks `fetch` to fail with `PathTraversal` for every name
containing a path separator or escaping the managed directory.  The code
has no such rejection: no branch of `handle_file_download` produces
`PathTraversal` for any input (first conjunct), a name `"a/b"` denoting an
existing file inside subdirectory `a` is served rather than rejected
(second conjunct), and `"../secret"` naming an existing file outside the
directory is answered with the 404 `NotFound` body, not `PathTraversal`
(third conjunct).  The claim's positive halves do hold: an existing direct
child is served byte-exact and a missing plain name is `NotFound` (last
two conjuncts). -/
theorem fetch_never_path_traversal :
    (∀ (fs : FS) (filename : String),
        isPathTraversalError (handle_file_download fs filename) = false) ∧
    handle_file_download fsFetch "a/b" = .ok [7, 8, 9] ∧
    handle_file_download fsFetch "../secret" = .error .notFound ∧
    handle_file_download fsFetch "present.txt" = .ok [4, 2] ∧
    handle_file_download fsFetch "nope.txt" = .error .notFound := by
  refine ⟨?_, by decide, by decide, by decide, by decide⟩
  intro fs filename
  simp only [handle_file_download]
  by_cases h1 : pyStrip filename = ""
  · simp [h1, isPathTraversalError]
  · simp only [h1, if_false]
    cases hr : resolveFile fs (pyStrip filename) with
    | none => simp [isPathTraversalError]
    | some f =>
      by_cases h2 : safeJoinRejects (pyStrip filename) = true
      · simp [h2, isPathTraversalError]
      · simp [h2, isPathTraversalError]

/-- C2: the claim says `GET /api/disk-usage` always returns the capacity
report.  The handler body evaluates `shutil.disk_usage`, but no statement
of the module binds the name `shutil` (it is never imported), so every
invocation raises `NameError` and is answered by the 500
"Internal server error" handler — the report is never produced. -/
theorem disk_usage_always_internal_error :
    ∀ du : DiskUsage, api_disk_usage du = .error .internalError :=
  fun _ => rfl

/-- C3: the claim says `GET /api/files?q=alpha` returns exactly the files
whose names contain `"alpha"`.  On a directory holding `alpha.txt` and
`beta.txt` the endpoint returns both records: `api_get_files` parses `q`
into a local it never uses, and the delegate `handle_get_files` reads the
form field `"query"`, absent in a GET request, so no filter is applied —
even though `beta.txt` fails the listing's own keep-test for `"alpha"`
(second conjunct). -/
theorem api_files_ignores_query_filter :
    api_get_files "alpha" itListing =
      .ok [{ filename := "alpha.txt", size := 1, modified := 5, selected := false },
           { filename := "beta.txt", size := 1, modified := 3, selected := false }] ∧
    matchesQuery "alpha" "beta.txt" = false := by
  constructor
  · decide
  · decide

/-- C6: on an uninterrupted enumeration with no filter, the listing
returns one record per regular direct child — directories and other
non-file children contribute nothing, so the length is the number of
regular files regardless of how many subdirectories there are — and the
records come newest-modified-first. -/
theorem listing_one_record_per_file_newest_first (children : List Entry) :
    ∃ l, handle_get_files { yielded := children, interrupted := false } "" = .ok l ∧
      l.Perm (children.filterMap entryRecord) ∧
      l.length = children.countP Entry.isFile ∧
      List.Sorted newestFirst l := by
  have hq : pyStrip (pyLower "") = "" := rfl
  have hcol : children.filterMap (recordIfMatch (pyStrip (pyLower ""))) =
      children.filterMap entryRecord := by
    rw [hq]
    exact List.filterMap_congr (fun e _ => recordIfMatch_empty_eq e)
  refine ⟨List.insertionSort newestFirst
    (children.filterMap (recordIfMatch (pyStrip (pyLower "")))), rfl, ?_, ?_, ?_⟩
  · rw [hcol]
    exact List.perm_insertionSort newestFirst _
  · rw [List.length_insertionSort, hcol, filterMap_entryRecord_length]
  · exact List.sorted_insertionSort newestFirst _

/-- C8: when the directory enumeration raises part-way through, the
`except` arm of `handle_get_files` only logs, and the handler still
answers 200 with the records collected from the yielded prefix (possibly
none) — never an error response. -/
theorem listing_survives_iteration_interruption (yielded : List Entry) (q : String) :
    ∃ l, handle_get_files { yielded := yielded, interrupted := true } q = .ok l ∧
      l = yielded.filterMap (recordIfMatch (pyStrip (pyLower q))) :=
  ⟨_, rfl, rfl⟩

/-- C10: archiving never modifies the managed directory: the zip is
assembled in an in-memory buffer and the source files are only read, so
for every non-empty selection the handler succeeds with the directory
state unchanged (and the empty selection is rejected before any file is
touched). -/
theorem archive_preserves_directory (fs : FS) (fn : String) (rest : List String) :
    ∃ entries, handle_zip_download fs (fn :: rest) = .ok (entries, fs) :=
  ⟨_, rfl⟩

/-- C4: purge never deletes a file still inside the duration window,
deletes every removable direct-child regular file older than the cutoff,
continues past individual deletion failures — a failing unlink contributes
its message to `errors` and leaves the file in place — and the lengths of
`deleted` and `errors` are exactly the counts of old-removable and
old-unremovable files (so N old files plus one unremovable one yield
`deleted` of length N and `errors` of length 1, the unremovable file still
existing). -/
theorem purge_deletes_old_keeps_recent (now days : Int) (fs : FS)
    (hnodup : (fs.children.map Entry.name).Nodup) :
    (∀ f : FileEnt, Entry.file f ∈ fs.children → cutoffOf now days ≤ f.mtime →
        f.name ∉ (api_cleanup now days fs).1.deleted ∧
        Entry.file f ∈ (api_cleanup now days fs).2.children) ∧
    (∀ f : FileEnt, Entry.file f ∈ fs.children → f.mtime < cutoffOf now days →
        f.removable = true →
        f.name ∈ (api_cleanup now days fs).1.deleted) ∧
    (∀ f : FileEnt, Entry.file f ∈ fs.children → f.mtime < cutoffOf now days →
        f.removable = false →
        unlinkErrMsg f.name ∈ (api_cleanup now days fs).1.errors ∧
        Entry.file f ∈ (api_cleanup now days fs).2.children) ∧
    (api_cleanup now days fs).1.deleted.length =
      fs.children.countP (isOldRemovableFile (cutoffOf now days)) ∧
    (api_cleanup now days fs).1.errors.length =
      fs.children.countP (isOldStuckFile (cutoffOf now days)) := by
  refine ⟨?_, ?_, ?_, ?_, ?_⟩
  · intro f hmem hwin
    refine ⟨name_not_deleted_of_not_old now days fs f hnodup hmem (not_lt.mpr hwin), ?_⟩
    rw [api_cleanup_children]
    exact List.mem_filter.mpr ⟨hmem, by simp [isOldRemovableFile, not_lt.mpr hwin]⟩
  · intro f hmem hold hrem
    rw [api_cleanup_deleted]
    refine List.mem_map.mpr ⟨Entry.file f, ?_, rfl⟩
    exact List.mem_filter.mpr ⟨hmem, by simp [isOldRemovableFile, hold, hrem]⟩
  · intro f hmem hold hrem
    constructor
    · rw [api_cleanup_errors]
      exact List.mem_map.mpr ⟨Entry.file f,
        List.mem_filter.mpr ⟨hmem, by simp [isOldStuckFile, hold, hrem]⟩, rfl⟩
    · rw [api_cleanup_children]
      exact List.mem_filter.mpr ⟨hmem, by simp [isOldRemovableFile, hrem]⟩
  · rw [api_cleanup_deleted, List.length_map, List.countP_eq_length_filter]
  · rw [api_cleanup_errors, List.length_map, List.countP_eq_length_filter]

/-- A removable file old enough to be purged at `now = 1000000`,
`days = 1`. -/
def oldEnt : FileEnt := { name := "old.mp4", content := [1], mtime := 0, removable := true }

/-- An old file whose unlink fails. -/
def stuckEnt : FileEnt := { name := "stuck.mp4", content := [2], mtime := 1, removable := false }

/-- A file inside the duration window. -/
def freshEnt : FileEnt := { name := "fresh.mp4", content := [3], mtime := 999999, removable := true }

/-- One old removable file, one old unremovable file, one fresh file, one
subdirectory. -/
def fsPurgeA : FS :=
  { children := [.file oldEnt, .file stuckEnt, .file freshEnt, .dir "sub" []]
    outside := [] }

/-- C4 witness: on `fsPurgeA` at `now = 1000000`, `days = 1` (cutoff
913600), the fresh file is untouched, the old file's name is reported
deleted, the unremovable file yields exactly one error message and still
exists, and the report lengths match the old-removable / old-unremovable
counts (here 1 and 1). -/
theorem purge_deletes_old_keeps_recent_witness :
    (freshEnt.name ∉ (api_cleanup 1000000 1 fsPurgeA).1.deleted ∧
      Entry.file freshEnt ∈ (api_cleanup 1000000 1 fsPurgeA).2.children) ∧
    oldEnt.name ∈ (api_cleanup 1000000 1 fsPurgeA).1.deleted ∧
    (unlinkErrMsg stuckEnt.name ∈ (api_cleanup 1000000 1 fsPurgeA).1.errors ∧
      Entry.file stuckEnt ∈ (api_cleanup 1000000 1 fsPurgeA).2.children) ∧
    (api_cleanup 1000000 1 fsPurgeA).1.deleted.length =
      fsPurgeA.children.countP (isOldRemovableFile (cutoffOf 1000000 1)) ∧
    (api_cleanup 1000000 1 fsPurgeA).1.errors.length =
      fsPurgeA.children.countP (isOldStuckFile (cutoffOf 1000000 1)) := by
  have h := purge_deletes_old_keeps_recent 1000000 1 fsPurgeA (by decide)
  exact ⟨h.1 freshEnt (by decide) (by decide),
         h.2.1 oldEnt (by decide) (by decide) rfl,
         h.2.2.1 stuckEnt (by decide) (by decide) rfl,
         h.2.2.2⟩

/-- C9: the purge comparison `st_mtime < cutoff` is strict — a file whose
last-modified time equals `now − duration` exactly is not deleted: it is
still among the directory's children afterwards and its name is not in the
`deleted` report. -/
theorem purge_cutoff_is_strict (now days : Int) (fs : FS) (f : FileEnt)
    (hnodup : (fs.children.map Entry.name).Nodup)
    (hmem : Entry.file f ∈ fs.children)
    (hmtime : f.mtime = cutoffOf now days) :
    Entry.file f ∈ (api_cleanup now days fs).2.children ∧
    f.name ∉ (api_cleanup now days fs).1.deleted := by
  have hnot : ¬ f.mtime < cutoffOf now days := by rw [hmtime]; exact lt_irrefl _
  constructor
  · rw [api_cleanup_children]
    exact List.mem_filter.mpr ⟨hmem, by simp [isOldRemovableFile, hnot]⟩
  · exact name_not_deleted_of_not_old now days fs f hnodup hmem hnot

/-- A file whose modified time sits exactly on the purge cutoff for
`now = 1000000`, `days = 1`. -/
def boundaryEnt : FileEnt :=
  { name := "boundary.mp4", content := [5], mtime := 913600, removable := true }

/-- A directory with one file exactly on the cutoff and one strictly older
file. -/
def fsPurgeB : FS :=
  { children := [.file boundaryEnt,
                 .file { name := "older.mp4", content := [6], mtime := 913599, removable := true }]
    outside := [] }

/-- C9 witness: at `now = 1000000`, `days = 1` the cutoff is 913600; the
file modified exactly then survives the purge and is not reported
deleted. -/
theorem purge_cutoff_is_strict_witness :
    Entry.file boundaryEnt ∈ (api_cleanup 1000000 1 fsPurgeB).2.children ∧
    boundaryEnt.name ∉ (api_cleanup 1000000 1 fsPurgeB).1.deleted :=
  purge_cutoff_is_strict 1000000 1 fsPurgeB boundaryEnt (by decide) (by decide) (by decide)

/-- C5 counterexample: the claim says a non-empty selection produces a zip
containing exactly the named files that exist as regular *direct children*
of the managed directory.  On `fsSubOnly` — whose only regular file lives
inside the subdirectory `a`, so it has no direct-child regular file at all
(second conjunct) — the selection `["a/b"]` nevertheless produces a
one-entry zip: the handler's `exists() and is_file()` test accepts any
name that resolves to an existing regular file, direct child or not. -/
theorem archive_includes_non_direct_child :
    handle_zip_download fsSubOnly ["a/b"] = .ok ([("a/b", [9])], fsSubOnly) ∧
    fsSubOnly.children.all (fun e => !e.isFile) = true := by
  constructor
  · decide
  · decide

/-- C5 (amended): archiving fails with `EmptySelection` exactly when the
supplied name list is empty; every non-empty selection succeeds with the
directory unchanged, and the zip's entries are exactly the requested names
that resolve — relative to the managed directory, so possibly into a
subdirectory or through `..` — to an existing regular file, carrying that
file's bytes; names that do not resolve are skipped silently (so a
selection of only missing names yields a zero-entry archive, not an
error). -/
theorem archive_empty_iff_and_entries (fs : FS) (fn0 : String) (rest : List String) :
    (∀ fns : List String,
        handle_zip_download fs fns = .error .emptySelection ↔ fns = []) ∧
    ∃ entries, handle_zip_download fs (fn0 :: rest) = .ok (entries, fs) ∧
      ∀ fn content, (fn, content) ∈ entries ↔
        fn ∈ fn0 :: rest ∧ ∃ f, resolveFile fs fn = some f ∧ content = f.content := by
  constructor
  · intro fns
    constructor
    · intro h
      by_contra hne
      simp [handle_zip_download, hne] at h
    · intro h
      subst h
      rfl
  · refine ⟨(fn0 :: rest).filterMap
      (fun fn => (resolveFile fs fn).map (fun f => (fn, f.content))),
      by simp [handle_zip_download], ?_⟩
    intro fn content
    constructor
    · intro hmem
      rcases List.mem_filterMap.mp hmem with ⟨a, ha, hval⟩
      rcases Option.map_eq_some'.mp hval with ⟨f, hres, heq⟩
      rcases Prod.mk.injEq .. ▸ heq with ⟨rfl, rfl⟩
      exact ⟨ha, f, hres, rfl⟩
    · rintro ⟨hmem, f, hres, rfl⟩
      exact List.mem_filterMap.mpr ⟨fn, hmem, by rw [hres]; rfl⟩

/-- C5 witness: the empty selection is rejected with `EmptySelection`,
while the selection `["missing.txt"]` of a name resolving to nothing
succeeds on `fsSubOnly` with a zero-entry archive — its entry set is
characterised by the resolution test, which no name passes here. -/
theorem archive_empty_iff_and_entries_witness :
    handle_zip_download fsSubOnly [] = .error .emptySelection ∧
    ∃ entries, handle_zip_download fsSubOnly ["missing.txt"] = .ok (entries, fsSubOnly) ∧
      ∀ fn content, (fn, content) ∈ entries ↔
        fn ∈ ["missing.txt"] ∧
          ∃ f, resolveFile fsSubOnly fn = some f ∧ content = f.content :=
  ⟨((archive_empty_iff_and_entries fsSubOnly "missing.txt" []).1 []).mpr rfl,
   (archive_empty_iff_and_entries fsSubOnly "missing.txt" []).2⟩

/-- C7: the search operation fails soft.  A query that strips to the empty
string short-circuits to the empty list with `search_youtube` — and hence
the provider and its cache — never invoked (first conjunct; the Boolean of
`handle_youtube_search` records the invocation).  Whenever the provider
raises, `search_youtube` catches and returns the empty list (second
conjunct), so the handler answers the empty JSON list rather than a fault
(third conjunct). -/
theorem search_soft_fails_to_empty (provider : Provider) (q : String) (limit : Nat) :
    (pyStrip q = "" → handle_youtube_search provider q = ([], false)) ∧
    (∀ e, provider (pyStrip q) limit = .error e →
        search_youtube provider (pyStrip q) limit = []) ∧
    (∀ e, pyStrip q ≠ "" → provider (pyStrip q) 10 = .error e →
        handle_youtube_search provider q = ([], true)) := by
  refine ⟨?_, ?_, ?_⟩
  · intro h
    simp [handle_youtube_search, h]
  · intro e h
    simp [search_youtube, h]
  · intro e hne h
    simp [handle_youtube_search, hne, search_youtube, h]

/-- C7 witness: with a provider that always raises, a whitespace-only
query returns the empty list without invoking the search at all, a direct
`search_youtube` call returns the empty list, and the handler folds the
provider failure into the empty JSON list. -/
theorem search_soft_fails_to_empty_witness :
    handle_youtube_search pBoom "   " = ([], false) ∧
    search_youtube pBoom (pyStrip "cats") 7 = [] ∧
    handle_youtube_search pBoom "cats" = ([], true) :=
  ⟨(search_soft_fails_to_empty pBoom "   " 7).1 (by decide),
   (search_soft_fails_to_empty pBoom "cats" 7).2.1 "network unreachable" rfl,
   (search_soft_fails_to_empty pBoom "cats" 7).2.2 "network unreachable" (by decide) rfl⟩

end UltraTech
